import Mathlib

/-
Shallow embedding of the reconciliation engine and entity store of
internal/database/crud.go (twitter-media-download).

The SQLite store is modelled as in-memory lists of rows, one list per
table, kept in insertion order ("the first row returned by the store" is
the head of the corresponding filtered list).  The UNIQUE constraints of
the schema (user_entities: UNIQUE(user_id, parent_dir); lst_entities:
UNIQUE(lst_id, parent_dir), parent_dir COLLATE NOCASE in both) are
enforced on INSERT and UPDATE, as SQLite does: a violating statement
returns a constraint error and leaves the table unchanged.

The filesystem is modelled as an oracle FS: path canonicalization
(filepath.Abs), presence of the sentinel marker file ".user" directly
inside a directory (os.Stat(filepath.Join(dir, ".user")) succeeding), and
plain directory existence (os.Stat(dir) succeeding).
-/

set_option autoImplicit false

namespace Crud

/-- Case-insensitive string equality, modelling SQLite COLLATE NOCASE on
parent_dir columns and Go strings.EqualFold as used on list names:
compare the character sequences folded to lower case. -/
def nocaseEq (a b : String) : Bool :=
  a.data.map Char.toLower == b.data.map Char.toLower

/-- Decidable equality of statement results. -/
def exceptDecEq {ε α : Type} [DecidableEq ε] [DecidableEq α] :
    (a b : Except ε α) → Decidable (a = b)
  | Except.error e, Except.error f =>
    if h : e = f then isTrue (congrArg Except.error h)
    else isFalse (fun hh => by
      cases hh
      exact h rfl)
  | Except.error _, Except.ok _ => isFalse (fun hh => Except.noConfusion hh)
  | Except.ok _, Except.error _ => isFalse (fun hh => Except.noConfusion hh)
  | Except.ok x, Except.ok y =>
    if h : x = y then isTrue (congrArg Except.ok h)
    else isFalse (fun hh => by
      cases hh
      exact h rfl)

instance {ε α : Type} [DecidableEq ε] [DecidableEq α] : DecidableEq (Except ε α) :=
  exceptDecEq

/-- Filesystem oracle: filepath.Abs, presence of the ".user" marker file
inside a directory, and existence of a directory. -/
structure FS where
  abs : String → String
  marker : String → Bool
  dirExists : String → Bool

/-- Row of the users table. -/
structure User where
  id : Nat
  screen_name : String
  name : String
  protectedFlag : Bool
  friends_count : Nat
deriving Repr, DecidableEq

/-- Row of the user_entities table; latest_release_time and media_count
are nullable columns.  The same shape is the Go UserEntity struct, which
also serves as the candidate argument of the create functions. -/
structure UserEntity where
  id : Nat
  user_id : Nat
  name : String
  latest_release_time : Option Nat
  parent_dir : String
  media_count : Option Nat
deriving Repr, DecidableEq

/-- Row of the lsts table. -/
structure Lst where
  id : Nat
  name : String
  owner_uid : Nat
deriving Repr, DecidableEq

/-- Row of the lst_entities table; doubles as the Go LstEntity struct. -/
structure LstEntity where
  id : Nat
  lst_id : Nat
  name : String
  parent_dir : String
deriving Repr, DecidableEq

/-- Row of the user_links table. -/
structure UserLink where
  id : Nat
  user_id : Nat
  name : String
  parent_lst_entity_id : Nat
deriving Repr, DecidableEq

/-- The store: one list of rows per table, in insertion order, plus the
next auto-assigned primary key for the two entity tables. -/
structure Db where
  users : List User
  lsts : List Lst
  user_entities : List UserEntity
  lst_entities : List LstEntity
  user_links : List UserLink
  nextUserEntityId : Nat
  nextLstEntityId : Nat
deriving Repr, DecidableEq

/-- Primary keys of user_entities rows are pairwise distinct. -/
def userIdsNodup (db : Db) : Prop := (db.user_entities.map (fun r => r.id)).Nodup

/-- Primary keys of lst_entities rows are pairwise distinct. -/
def lstIdsNodup (db : Db) : Prop := (db.lst_entities.map (fun r => r.id)).Nodup

instance (db : Db) : Decidable (userIdsNodup db) := by
  unfold userIdsNodup; infer_instance

instance (db : Db) : Decidable (lstIdsNodup db) := by
  unfold lstIdsNodup; infer_instance

/-- SELECT * FROM user_entities WHERE user_id=? (db.Select: every matching
row, in store order). -/
def selectUserEntitiesByUid (db : Db) (uid : Nat) : List UserEntity :=
  db.user_entities.filter (fun r => r.user_id == uid)

/-- SELECT * FROM user_entities WHERE user_id=? AND parent_dir=? through
db.Get: the first matching row, parent_dir compared COLLATE NOCASE. -/
def getUserEntityByUidAndDir (db : Db) (uid : Nat) (dir : String) : Option UserEntity :=
  db.user_entities.find? (fun r => r.user_id == uid && nocaseEq r.parent_dir dir)

/-- Whether rewriting row rowId (owned by uid) to parent_dir=dir would
collide with a different row under UNIQUE(user_id, parent_dir). -/
def userEntityDirConflict (rows : List UserEntity) (rowId uid : Nat) (dir : String) : Bool :=
  rows.any (fun r => r.id != rowId && r.user_id == uid && nocaseEq r.parent_dir dir)

/-- The UNIQUE(user_id, parent_dir) constraint error, as surfaced by the
SQLite driver. -/
def userEntityUniqueErr : String :=
  "UNIQUE constraint failed: user_entities.user_id, user_entities.parent_dir"

/-- UPDATE user_entities SET parent_dir=? WHERE id=?; fails with the
uniqueness-constraint error when the new (user_id, parent_dir) pair is
already taken by a different row. -/
def execUpdateUserEntityDir (db : Db) (rowId : Nat) (dir : String) : Except String Db :=
  match db.user_entities.find? (fun r => r.id == rowId) with
  | none => Except.ok db
  | some target =>
    if userEntityDirConflict db.user_entities rowId target.user_id dir then
      Except.error userEntityUniqueErr
    else
      Except.ok { db with user_entities :=
        db.user_entities.map (fun r =>
          if r.id == rowId then { r with parent_dir := dir } else r) }

/-- UPDATE user_entities SET parent_dir=?, name=? WHERE id=?. -/
def execUpdateUserEntityDirName (db : Db) (rowId : Nat) (dir nm : String) : Except String Db :=
  match db.user_entities.find? (fun r => r.id == rowId) with
  | none => Except.ok db
  | some target =>
    if userEntityDirConflict db.user_entities rowId target.user_id dir then
      Except.error userEntityUniqueErr
    else
      Except.ok { db with user_entities :=
        db.user_entities.map (fun r =>
          if r.id == rowId then { r with parent_dir := dir, name := nm } else r) }

/-- INSERT INTO user_entities(user_id, name, parent_dir) VALUES(?,?,?).
latest_release_time and media_count are absent from the column list, so
the inserted row stores NULL for both.  Returns the new row id
(LastInsertId). -/
def insertUserEntity (db : Db) (uid : Nat) (nm dir : String) : Except String (Db × Nat) :=
  if db.user_entities.any (fun r => r.user_id == uid && nocaseEq r.parent_dir dir) then
    Except.error userEntityUniqueErr
  else
    Except.ok ({ db with
        user_entities := db.user_entities ++
          [{ id := db.nextUserEntityId, user_id := uid, name := nm,
             latest_release_time := none, parent_dir := dir, media_count := none }],
        nextUserEntityId := db.nextUserEntityId + 1 },
      db.nextUserEntityId)

/-- SELECT * FROM lst_entities WHERE lst_id=? (db.Select). -/
def selectLstEntitiesByLid (db : Db) (lid : Nat) : List LstEntity :=
  db.lst_entities.filter (fun r => r.lst_id == lid)

/-- SELECT * FROM lst_entities WHERE lst_id=? AND parent_dir=? through
db.Get, parent_dir compared COLLATE NOCASE. -/
def getLstEntityByLidAndDir (db : Db) (lid : Nat) (dir : String) : Option LstEntity :=
  db.lst_entities.find? (fun r => r.lst_id == lid && nocaseEq r.parent_dir dir)

/-- Whether rewriting row rowId (of list lid) to parent_dir=dir would
collide with a different row under UNIQUE(lst_id, parent_dir). -/
def lstEntityDirConflict (rows : List LstEntity) (rowId lid : Nat) (dir : String) : Bool :=
  rows.any (fun r => r.id != rowId && r.lst_id == lid && nocaseEq r.parent_dir dir)

/-- The UNIQUE(lst_id, parent_dir) constraint error. -/
def lstEntityUniqueErr : String :=
  "UNIQUE constraint failed: lst_entities.lst_id, lst_entities.parent_dir"

/-- UPDATE lst_entities SET parent_dir=? WHERE id=?. -/
def execUpdateLstEntityDir (db : Db) (rowId : Nat) (dir : String) : Except String Db :=
  match db.lst_entities.find? (fun r => r.id == rowId) with
  | none => Except.ok db
  | some target =>
    if lstEntityDirConflict db.lst_entities rowId target.lst_id dir then
      Except.error lstEntityUniqueErr
    else
      Except.ok { db with lst_entities :=
        db.lst_entities.map (fun r =>
          if r.id == rowId then { r with parent_dir := dir } else r) }

/-- INSERT INTO lst_entities(lst_id, name, parent_dir) VALUES(?,?,?);
returns the new row id. -/
def insertLstEntity (db : Db) (lid : Nat) (nm dir : String) : Except String (Db × Nat) :=
  if db.lst_entities.any (fun r => r.lst_id == lid && nocaseEq r.parent_dir dir) then
    Except.error lstEntityUniqueErr
  else
    Except.ok ({ db with
        lst_entities := db.lst_entities ++
          [{ id := db.nextLstEntityId, lst_id := lid, name := nm, parent_dir := dir }],
        nextLstEntityId := db.nextLstEntityId + 1 },
      db.nextLstEntityId)

/-- Effect of a db.Exec whose two return values the caller discards (the
UPDATE statements of LocateUserEntity and LocateLstEntity): on failure the
statement has no effect and execution simply continues. -/
def execDiscard (db : Db) (r : Except String Db) : Db :=
  match r with
  | Except.ok db2 => db2
  | Except.error _ => db

/-- Marker-scan fallback of LocateUserEntity (the body of its
sql.ErrNoRows branch): walk every row of the account and accept the first
whose currently stored directory still carries the ".user" marker; the
UPDATE's error return is discarded by the source. -/
def locateUserEntityScan (fs : FS) (db : Db) (uid : Nat) (absPath : String) :
    Db × Except String (Option UserEntity) :=
  match (selectUserEntitiesByUid db uid).find? (fun e => fs.marker e.parent_dir) with
  | some entity =>
    let db2 := execDiscard db (execUpdateUserEntityDir db entity.id absPath)
    (db2, Except.ok (some { entity with parent_dir := absPath }))
  | none => (db, Except.ok none)

/-- Exact-match phase of LocateUserEntity followed by the marker-scan
fallback. -/
def locateUserEntityNoFast (fs : FS) (db : Db) (uid : Nat) (absPath : String) :
    Db × Except String (Option UserEntity) :=
  match getUserEntityByUidAndDir db uid absPath with
  | some result => (db, Except.ok (some result))
  | none => locateUserEntityScan fs db uid absPath

/-- LocateUserEntity from crud.go: canonicalize, marker fast path (".user"
present inside the candidate directory: rewrite the first stored row of
the account, ignoring the UPDATE's error return), then exact match, then
marker-scan fallback. -/
def LocateUserEntity (fs : FS) (db : Db) (uid : Nat) (parentDir : String) :
    Db × Except String (Option UserEntity) :=
  let absPath := fs.abs parentDir
  if fs.marker absPath then
    match selectUserEntitiesByUid db uid with
    | entity :: _ =>
      let db2 := execDiscard db (execUpdateUserEntityDir db entity.id absPath)
      (db2, Except.ok (some { entity with parent_dir := absPath }))
    | [] => locateUserEntityNoFast fs db uid absPath
  else
    locateUserEntityNoFast fs db uid absPath

/-- Marker-scan and creation phases of CreateOrUpdateUserEntityWithPathChange;
the entity argument already carries the canonicalized parent_dir.  Both
the UPDATE and the INSERT propagate their errors in this function. -/
def createOrUpdateUserEntityScan (fs : FS) (db : Db) (entity : UserEntity) :
    Db × Except String UserEntity :=
  match (selectUserEntitiesByUid db entity.user_id).find? (fun e => fs.marker e.parent_dir) with
  | some existingEntity =>
    match execUpdateUserEntityDirName db existingEntity.id entity.parent_dir entity.name with
    | Except.error e => (db, Except.error e)
    | Except.ok db2 =>
      (db2, Except.ok { existingEntity with parent_dir := entity.parent_dir, name := entity.name })
  | none =>
    match insertUserEntity db entity.user_id entity.name entity.parent_dir with
    | Except.error e => (db, Except.error e)
    | Except.ok (db2, newId) => (db2, Except.ok { entity with id := newId })

/-- CreateOrUpdateUserEntityWithPathChange from crud.go (the unused
rootPath parameter is omitted): canonicalize, marker fast path (rewrite
directory and name of the first stored row of the account), then
marker-scan, then INSERT of user_id, name and parent_dir only. -/
def CreateOrUpdateUserEntityWithPathChange (fs : FS) (db : Db) (entity : UserEntity) :
    Db × Except String UserEntity :=
  let absPath := fs.abs entity.parent_dir
  let entity2 := { entity with parent_dir := absPath }
  if fs.marker absPath then
    match selectUserEntitiesByUid db entity2.user_id with
    | existingEntity :: _ =>
      match execUpdateUserEntityDirName db existingEntity.id entity2.parent_dir entity2.name with
      | Except.error e => (db, Except.error e)
      | Except.ok db2 =>
        (db2, Except.ok { existingEntity with parent_dir := entity2.parent_dir, name := entity2.name })
    | [] => createOrUpdateUserEntityScan fs db entity2
  else
    createOrUpdateUserEntityScan fs db entity2

/-- CreateUserEntity from crud.go: canonicalize, then a plain INSERT of
user_id, name and parent_dir; the returned in-memory entity is the
argument with its id set from LastInsertId. -/
def CreateUserEntity (fs : FS) (db : Db) (entity : UserEntity) :
    Db × Except String UserEntity :=
  let absPath := fs.abs entity.parent_dir
  match insertUserEntity db entity.user_id entity.name absPath with
  | Except.error e => (db, Except.error e)
  | Except.ok (db2, newId) =>
    (db2, Except.ok { entity with parent_dir := absPath, id := newId })

/-- CreateOrUpdateLstEntityWithPathChange from crud.go: canonicalize,
then scan every row of the list and accept the first whose name equals
the candidate's case-insensitively (no disk check and no exact-match
phase), rewriting its directory; otherwise INSERT. -/
def CreateOrUpdateLstEntityWithPathChange (fs : FS) (db : Db) (entity : LstEntity) :
    Db × Except String LstEntity :=
  let absPath := fs.abs entity.parent_dir
  match (selectLstEntitiesByLid db entity.lst_id).find? (fun e => nocaseEq e.name entity.name) with
  | some existingEntity =>
    match execUpdateLstEntityDir db existingEntity.id absPath with
    | Except.error e => (db, Except.error e)
    | Except.ok db2 => (db2, Except.ok { existingEntity with parent_dir := absPath })
  | none =>
    match insertLstEntity db entity.lst_id entity.name absPath with
    | Except.error e => (db, Except.error e)
    | Except.ok (db2, newId) =>
      (db2, Except.ok { entity with parent_dir := absPath, id := newId })

/-- LocateLstEntity from crud.go: canonicalize, exact match on
(lst_id, parent_dir), then a fallback that accepts the first stored row of
the list as soon as the candidate directory exists on disk (the loop's
condition does not inspect the row), discarding the UPDATE's error
return. -/
def LocateLstEntity (fs : FS) (db : Db) (lid : Nat) (parentDir : String) :
    Db × Except String (Option LstEntity) :=
  let absPath := fs.abs parentDir
  match getLstEntityByLidAndDir db lid absPath with
  | some result => (db, Except.ok (some result))
  | none =>
    match (selectLstEntitiesByLid db lid).find? (fun _ => fs.dirExists absPath) with
    | some entity =>
      let db2 := execDiscard db (execUpdateLstEntityDir db entity.id absPath)
      (db2, Except.ok (some { entity with parent_dir := absPath }))
    | none => (db, Except.ok none)

/-- GetUserById from crud.go: sql.ErrNoRows is translated into a nil
result with a nil error. -/
def GetUserById (db : Db) (uid : Nat) : Except String (Option User) :=
  match db.users.find? (fun u => u.id == uid) with
  | none => Except.ok none
  | some u => Except.ok (some u)

/-- GetUserEntity from crud.go (lookup by primary key). -/
def GetUserEntity (db : Db) (id : Nat) : Except String (Option UserEntity) :=
  match db.user_entities.find? (fun r => r.id == id) with
  | none => Except.ok none
  | some r => Except.ok (some r)

/-- GetLst from crud.go. -/
def GetLst (db : Db) (lid : Nat) : Except String (Option Lst) :=
  match db.lsts.find? (fun l => l.id == lid) with
  | none => Except.ok none
  | some l => Except.ok (some l)

/-- GetLstEntity from crud.go (lookup by primary key). -/
def GetLstEntity (db : Db) (id : Nat) : Except String (Option LstEntity) :=
  match db.lst_entities.find? (fun r => r.id == id) with
  | none => Except.ok none
  | some r => Except.ok (some r)

/-- GetUserLink from crud.go (lookup by user id and owning list entity). -/
def GetUserLink (db : Db) (uid pleid : Nat) : Except String (Option UserLink) :=
  match db.user_links.find? (fun l => l.user_id == uid && l.parent_lst_entity_id == pleid) with
  | none => Except.ok none
  | some l => Except.ok (some l)

/-- A filesystem whose paths are already canonical, whose marker file is
present exactly in the first list of directories, and whose existing
directories are exactly the second list. -/
def fsOf (markers dirsOnDisk : List String) : FS :=
  { abs := fun s => s,
    marker := fun s => markers.contains s,
    dirExists := fun s => dirsOnDisk.contains s }

/-- A store holding only entity rows. -/
def dbOfEntities (ue : List UserEntity) (le : List LstEntity) (nextU nextL : Nat) : Db :=
  { users := [], lsts := [], user_entities := ue, lst_entities := le,
    user_links := [], nextUserEntityId := nextU, nextLstEntityId := nextL }

/-- A filesystem with no marker anywhere and no directory on disk. -/
def fsNone : FS := fsOf [] []

/-- The empty store. -/
def dbEmpty : Db := dbOfEntities [] [] 1 1

/-- Account 42's original row at /data/X. -/
def ueC1a : UserEntity :=
  { id := 1, user_id := 42, name := "alpha", latest_release_time := none,
    parent_dir := "/data/X", media_count := none }

/-- A second row of account 42 already sitting at /data/X2. -/
def ueC1b : UserEntity :=
  { id := 2, user_id := 42, name := "beta", latest_release_time := none,
    parent_dir := "/data/X2", media_count := none }

/-- Store with two rows for account 42, the second at /data/X2. -/
def dbC1 : Db := dbOfEntities [ueC1a, ueC1b] [] 3 1

/-- Marker present at /data/X2 only. -/
def fsC1 : FS := fsOf ["/data/X2"] []

/-- Store with the single row ueC1a for account 42. -/
def dbC1w : Db := dbOfEntities [ueC1a] [] 2 1

/-- Account 7's row at /old. -/
def ueC2 : UserEntity :=
  { id := 1, user_id := 7, name := "n", latest_release_time := none,
    parent_dir := "/old", media_count := none }

/-- Store with the single row ueC2. -/
def dbC2 : Db := dbOfEntities [ueC2] [] 2 1

/-- Marker present at /old only. -/
def fsC2 : FS := fsOf ["/old"] []

/-- Store with the single row ueC1a, reused at next id 2 for exact-match
scenarios. -/
def dbC3 : Db := dbOfEntities [ueC1a] [] 2 1

/-- Candidate entity for account 42 naming the already-stored /data/X. -/
def candC4 : UserEntity :=
  { id := 0, user_id := 42, name := "alpha", latest_release_time := none,
    parent_dir := "/data/X", media_count := none }

/-- List 3's row at /a. -/
def leC5 : LstEntity := { id := 1, lst_id := 3, name := "MyList", parent_dir := "/a" }

/-- Store with the single list row leC5. -/
def dbC5 : Db := dbOfEntities [] [leC5] 1 2

/-- No marker anywhere; /b exists on disk. -/
def fsC5 : FS := fsOf [] ["/b"]

/-- Candidate list entity with a case-insensitively equal name and a
directory that does not exist on disk. -/
def candC6 : LstEntity := { id := 0, lst_id := 3, name := "mylist", parent_dir := "/b" }

/-- Candidate entity for account 42 targeting /data/X2 under a new name. -/
def candC7 : UserEntity :=
  { id := 0, user_id := 42, name := "gamma", latest_release_time := none,
    parent_dir := "/data/X2", media_count := none }

/-- Candidate entity for account 9 carrying non-null stats that the
INSERT column list drops. -/
def candC10 : UserEntity :=
  { id := 0, user_id := 9, name := "fresh", latest_release_time := some 5,
    parent_dir := "/fresh", media_count := some 7 }

/-- A second row of account 42 already sitting at /target. -/
def ueC7t : UserEntity :=
  { id := 2, user_id := 42, name := "tee", latest_release_time := none,
    parent_dir := "/target", media_count := none }

/-- Store with rows of account 42 at /data/X and at /target. -/
def dbC7b : Db := dbOfEntities [ueC1a, ueC7t] [] 3 1

/-- Marker present at /data/X only. -/
def fsC7b : FS := fsOf ["/data/X"] []

/-- Candidate for account 42 moving to the already-occupied /target. -/
def candC7b : UserEntity :=
  { id := 0, user_id := 42, name := "n2", latest_release_time := none,
    parent_dir := "/target", media_count := none }

/-- Candidate for account 7 naming the already-stored /old. -/
def candC7i : UserEntity :=
  { id := 0, user_id := 7, name := "m", latest_release_time := none,
    parent_dir := "/old", media_count := none }

/-- List 3's row named A at /a. -/
def leC7a : LstEntity := { id := 1, lst_id := 3, name := "A", parent_dir := "/a" }

/-- List 3's row named B already at /b. -/
def leC7b : LstEntity := { id := 2, lst_id := 3, name := "B", parent_dir := "/b" }

/-- Store with the two list rows leC7a and leC7b. -/
def dbC7L : Db := dbOfEntities [] [leC7a, leC7b] 1 3

/-- Candidate list entity whose name folds to leC7a's and whose directory
is leC7b's. -/
def candC7L : LstEntity := { id := 0, lst_id := 3, name := "a", parent_dir := "/b" }

/-- Candidate list entity with a fresh name but the already-stored /a. -/
def candC7Li : LstEntity := { id := 0, lst_id := 3, name := "Other", parent_dir := "/a" }

/-- A second row of account 42 occupying /DATA/x2, case-insensitively
equal to the candidate /data/X2. -/
def ueC7c : UserEntity :=
  { id := 2, user_id := 42, name := "beta", latest_release_time := none,
    parent_dir := "/DATA/x2", media_count := none }

/-- Store with rows of account 42 at /data/X and /DATA/x2. -/
def dbC7f : Db := dbOfEntities [ueC1a, ueC7c] [] 3 1

/-- Store with one account row at /data/X and one list row at /a. -/
def dbC8 : Db := dbOfEntities [ueC1a] [leC5] 2 2

/-- Finding a row by its key in a list whose keys are pairwise distinct
returns exactly that row. -/
lemma find?_by_key {α : Type} (key : α → Nat) {l : List α} {e : α}
    (hnd : (l.map key).Nodup) (he : e ∈ l) :
    l.find? (fun r => key r == key e) = some e := by
  induction l with
  | nil => cases he
  | cons a t ih =>
    rw [List.map_cons, List.nodup_cons] at hnd
    rcases List.mem_cons.mp he with rfl | he2
    · exact List.find?_cons_of_pos _ (by simp)
    · have hne : key a ≠ key e := fun h => hnd.1 (h ▸ List.mem_map_of_mem key he2)
      rw [List.find?_cons_of_neg _ (by simpa using hne)]
      exact ih hnd.2 he2

/-- A conjunction-shaped row query returns nothing when the filter on its
first conjunct is already empty. -/
lemma find?_conj_none_of_filter_nil {α : Type} {p q : α → Bool} {l : List α}
    (h : l.filter p = []) : l.find? (fun a => p a && q a) = none := by
  rw [List.find?_eq_none]
  intro a ha
  have hp := List.filter_eq_nil_iff.mp h a ha
  simp_all

/-- A search whose predicate is constantly false finds nothing. -/
lemma find?_const_false {α : Type} (l : List α) : l.find? (fun _ => false) = none := by
  rw [List.find?_eq_none]
  intro a _
  simp

/-- Mapping a row transformation that does not disturb a predicate leaves
the length of the predicate's filter unchanged. -/
lemma length_filter_map_of_pred {α : Type} (f : α → α) (p : α → Bool)
    (hp : ∀ a, p (f a) = p a) (l : List α) :
    ((l.map f).filter p).length = (l.filter p).length := by
  rw [List.filter_map]
  have hfp : (p ∘ f) = p := funext hp
  rw [hfp, List.length_map]

/-- Membership and ownership of a row drawn from
selectUserEntitiesByUid. -/
lemma mem_uid_of_select {db : Db} {uid : Nat} {e : UserEntity}
    (he : e ∈ selectUserEntitiesByUid db uid) :
    e ∈ db.user_entities ∧ e.user_id = uid := by
  have h := List.mem_filter.mp he
  exact ⟨h.1, by simpa using h.2⟩

/-- When no row of the account sits at dir (COLLATE NOCASE), rewriting any
row of the account to dir cannot collide. -/
lemma userConflict_false_of_exact_none {db : Db} {uid : Nat} {dir : String} (rowId : Nat)
    (hex : getUserEntityByUidAndDir db uid dir = none) :
    userEntityDirConflict db.user_entities rowId uid dir = false := by
  unfold getUserEntityByUidAndDir at hex
  unfold userEntityDirConflict
  refine List.any_eq_false.mpr ?_
  intro r hr
  have hp := List.find?_eq_none.mp hex r hr
  simp only [Bool.and_eq_true, not_and] at hp ⊢
  intro h hn
  exact hp h.2 hn

/-- The lst_entities analogue of userConflict_false_of_exact_none. -/
lemma lstConflict_false_of_exact_none {db : Db} {lid : Nat} {dir : String} (rowId : Nat)
    (hex : getLstEntityByLidAndDir db lid dir = none) :
    lstEntityDirConflict db.lst_entities rowId lid dir = false := by
  unfold getLstEntityByLidAndDir at hex
  unfold lstEntityDirConflict
  refine List.any_eq_false.mpr ?_
  intro r hr
  have hp := List.find?_eq_none.mp hex r hr
  simp only [Bool.and_eq_true, not_and] at hp ⊢
  intro h hn
  exact hp h.2 hn

/-- Evaluation of the directory UPDATE on user_entities when the target
row exists and nothing collides. -/
lemma execUpdateUserEntityDir_ok {db : Db} {e : UserEntity} (dir : String)
    (hnd : userIdsNodup db) (he : e ∈ db.user_entities)
    (hnoc : userEntityDirConflict db.user_entities e.id e.user_id dir = false) :
    execUpdateUserEntityDir db e.id dir =
      Except.ok { db with user_entities := db.user_entities.map (fun r =>
        if r.id == e.id then { r with parent_dir := dir } else r) } := by
  have hnd2 : (db.user_entities.map (fun r => r.id)).Nodup := hnd
  have hf : db.user_entities.find? (fun r => r.id == e.id) = some e :=
    find?_by_key (fun r => r.id) hnd2 he
  simp only [execUpdateUserEntityDir, hf, hnoc]
  simp

/-- Evaluation of the directory UPDATE on user_entities when the new
(user_id, parent_dir) pair is already taken by another row. -/
lemma execUpdateUserEntityDir_error {db : Db} {e : UserEntity} (dir : String)
    (hnd : userIdsNodup db) (he : e ∈ db.user_entities)
    (hconf : userEntityDirConflict db.user_entities e.id e.user_id dir = true) :
    execUpdateUserEntityDir db e.id dir = Except.error userEntityUniqueErr := by
  have hnd2 : (db.user_entities.map (fun r => r.id)).Nodup := hnd
  have hf : db.user_entities.find? (fun r => r.id == e.id) = some e :=
    find?_by_key (fun r => r.id) hnd2 he
  simp only [execUpdateUserEntityDir, hf, hconf]
  simp

/-- Evaluation of the directory-and-name UPDATE on user_entities when the
target row exists and nothing collides. -/
lemma execUpdateUserEntityDirName_ok {db : Db} {e : UserEntity} (dir nm : String)
    (hnd : userIdsNodup db) (he : e ∈ db.user_entities)
    (hnoc : userEntityDirConflict db.user_entities e.id e.user_id dir = false) :
    execUpdateUserEntityDirName db e.id dir nm =
      Except.ok { db with user_entities := db.user_entities.map (fun r =>
        if r.id == e.id then { r with parent_dir := dir, name := nm } else r) } := by
  have hnd2 : (db.user_entities.map (fun r => r.id)).Nodup := hnd
  have hf : db.user_entities.find? (fun r => r.id == e.id) = some e :=
    find?_by_key (fun r => r.id) hnd2 he
  simp only [execUpdateUserEntityDirName, hf, hnoc]
  simp

/-- Evaluation of the directory UPDATE on lst_entities when the target
row exists and nothing collides. -/
lemma execUpdateLstEntityDir_ok {db : Db} {e : LstEntity} (dir : String)
    (hnd : lstIdsNodup db) (he : e ∈ db.lst_entities)
    (hnoc : lstEntityDirConflict db.lst_entities e.id e.lst_id dir = false) :
    execUpdateLstEntityDir db e.id dir =
      Except.ok { db with lst_entities := db.lst_entities.map (fun r =>
        if r.id == e.id then { r with parent_dir := dir } else r) } := by
  have hnd2 : (db.lst_entities.map (fun r => r.id)).Nodup := hnd
  have hf : db.lst_entities.find? (fun r => r.id == e.id) = some e :=
    find?_by_key (fun r => r.id) hnd2 he
  simp only [execUpdateLstEntityDir, hf, hnoc]
  simp

/-- Membership and ownership of a row drawn from
selectLstEntitiesByLid. -/
lemma mem_lid_of_select {db : Db} {lid : Nat} {e : LstEntity}
    (he : e ∈ selectLstEntitiesByLid db lid) :
    e ∈ db.lst_entities ∧ e.lst_id = lid := by
  have h := List.mem_filter.mp he
  exact ⟨h.1, by simpa using h.2⟩

/-- C3: Idempotent exact match — when no directory anywhere carries the
marker and a row with (uid, canonicalized dir) is stored, LocateUserEntity
returns that row and leaves the store untouched (no update, no insert). -/
theorem c3_idempotent_exact_match (fs : FS) (db : Db) (uid : Nat) (dir : String)
    (hm : ∀ s, fs.marker s = false) (r : UserEntity)
    (hex : getUserEntityByUidAndDir db uid (fs.abs dir) = some r) :
    LocateUserEntity fs db uid dir = (db, Except.ok (some r)) := by
  simp only [LocateUserEntity, hm, locateUserEntityNoFast, hex]
  simp

/-- Witness for c3_idempotent_exact_match at a concrete store. -/
theorem c3_idempotent_exact_match_witness :
    LocateUserEntity fsNone dbC3 42 "/data/X" = (dbC3, Except.ok (some ueC1a)) :=
  c3_idempotent_exact_match fsNone dbC3 42 "/data/X" (fun _ => rfl) ueC1a (by decide)

/-- C1 counterexample: account 42 holds two rows, the second already at
the canonicalized candidate directory /data/X2 where the marker sits.
The fast path picks the first row, its UPDATE violates
UNIQUE(user_id, parent_dir), the error is discarded, and the store is
returned unchanged: the stored directory of the first row is NOT updated
to /data/X2, contradicting the claim. -/
theorem c1_counterexample :
    fsC1.marker (fsC1.abs "/data/X2") = true ∧
    selectUserEntitiesByUid dbC1 42 ≠ [] ∧
    LocateUserEntity fsC1 dbC1 42 "/data/X2" =
      (dbC1, Except.ok (some { ueC1a with parent_dir := "/data/X2" })) ∧
    dbC1.user_entities.find? (fun r => r.id == ueC1a.id) = some ueC1a ∧
    ueC1a.parent_dir ≠ "/data/X2" := by decide

/-- C1 (amended): marker-confirmed relocation — when the marker sits in
the canonicalized dir, the account has at least one row, and no OTHER row
of the account already occupies that dir, LocateUserEntity rewrites the
stored directory of the first row, returns it with ParentDir set to the
canonicalized dir, inserts nothing, and preserves the number of rows of
the account. -/
theorem c1_marker_relocation (fs : FS) (db : Db) (uid : Nat) (dir : String)
    (e : UserEntity) (rest : List UserEntity)
    (hnd : userIdsNodup db)
    (hm : fs.marker (fs.abs dir) = true)
    (hsel : selectUserEntitiesByUid db uid = e :: rest)
    (hnoc : userEntityDirConflict db.user_entities e.id uid (fs.abs dir) = false) :
    LocateUserEntity fs db uid dir =
      ({ db with user_entities := db.user_entities.map (fun r =>
          if r.id == e.id then { r with parent_dir := fs.abs dir } else r) },
        Except.ok (some { e with parent_dir := fs.abs dir }))
    ∧ (LocateUserEntity fs db uid dir).1.user_entities.length = db.user_entities.length
    ∧ (selectUserEntitiesByUid (LocateUserEntity fs db uid dir).1 uid).length
        = (selectUserEntitiesByUid db uid).length := by
  have heMem : e ∈ db.user_entities ∧ e.user_id = uid := by
    apply mem_uid_of_select
    rw [hsel]
    exact List.mem_cons_self _ _
  have hnoc2 : userEntityDirConflict db.user_entities e.id e.user_id (fs.abs dir) = false := by
    rw [heMem.2]
    exact hnoc
  have hupd := execUpdateUserEntityDir_ok (fs.abs dir) hnd heMem.1 hnoc2
  have hmain : LocateUserEntity fs db uid dir =
      ({ db with user_entities := db.user_entities.map (fun r =>
          if r.id == e.id then { r with parent_dir := fs.abs dir } else r) },
        Except.ok (some { e with parent_dir := fs.abs dir })) := by
    simp only [LocateUserEntity, hm, hsel, hupd, execDiscard]
    simp
  refine ⟨hmain, ?_, ?_⟩
  · rw [hmain]
    simp
  · rw [hmain]
    simp only [selectUserEntitiesByUid]
    exact length_filter_map_of_pred _ _
      (fun a => by by_cases h : (a.id == e.id) = true <;> simp [h]) _

/-- Witness for c1_marker_relocation: single row at /data/X, marker at
/data/X2, relocation goes through. -/
theorem c1_marker_relocation_witness :
    LocateUserEntity fsC1 dbC1w 42 "/data/X2" =
      ({ dbC1w with user_entities := dbC1w.user_entities.map (fun r =>
          if r.id == ueC1a.id then { r with parent_dir := fsC1.abs "/data/X2" } else r) },
        Except.ok (some { ueC1a with parent_dir := fsC1.abs "/data/X2" }))
    ∧ (LocateUserEntity fsC1 dbC1w 42 "/data/X2").1.user_entities.length
        = dbC1w.user_entities.length
    ∧ (selectUserEntitiesByUid (LocateUserEntity fsC1 dbC1w 42 "/data/X2").1 42).length
        = (selectUserEntitiesByUid dbC1w 42).length :=
  c1_marker_relocation fsC1 dbC1w 42 "/data/X2" ueC1a [] (by decide) (by decide)
    (by decide) (by decide)

/-- C2: Fallback marker scan — marker absent from the canonicalized dir,
no exact match, and some row of the account still carries the marker in
its stored directory: LocateUserEntity rewrites the first such row to the
canonicalized dir, returns it, and preserves the number of rows of the
account (one row in, one row out). -/
theorem c2_fallback_marker_scan (fs : FS) (db : Db) (uid : Nat) (dir : String)
    (e : UserEntity)
    (hnd : userIdsNodup db)
    (hm : fs.marker (fs.abs dir) = false)
    (hex : getUserEntityByUidAndDir db uid (fs.abs dir) = none)
    (hfind : (selectUserEntitiesByUid db uid).find? (fun r => fs.marker r.parent_dir)
      = some e) :
    LocateUserEntity fs db uid dir =
      ({ db with user_entities := db.user_entities.map (fun r =>
          if r.id == e.id then { r with parent_dir := fs.abs dir } else r) },
        Except.ok (some { e with parent_dir := fs.abs dir }))
    ∧ (LocateUserEntity fs db uid dir).1.user_entities.length = db.user_entities.length
    ∧ (selectUserEntitiesByUid (LocateUserEntity fs db uid dir).1 uid).length
        = (selectUserEntitiesByUid db uid).length := by
  have heMem := mem_uid_of_select (List.mem_of_find?_eq_some hfind)
  have hnoc : userEntityDirConflict db.user_entities e.id e.user_id (fs.abs dir) = false := by
    rw [heMem.2]
    exact userConflict_false_of_exact_none e.id hex
  have hupd := execUpdateUserEntityDir_ok (fs.abs dir) hnd heMem.1 hnoc
  have hmain : LocateUserEntity fs db uid dir =
      ({ db with user_entities := db.user_entities.map (fun r =>
          if r.id == e.id then { r with parent_dir := fs.abs dir } else r) },
        Except.ok (some { e with parent_dir := fs.abs dir })) := by
    simp only [LocateUserEntity, hm, locateUserEntityNoFast, hex, locateUserEntityScan,
      hfind, hupd, execDiscard]
    simp
  refine ⟨hmain, ?_, ?_⟩
  · rw [hmain]
    simp
  · rw [hmain]
    simp only [selectUserEntitiesByUid]
    exact length_filter_map_of_pred _ _
      (fun a => by by_cases h : (a.id == e.id) = true <;> simp [h]) _

/-- Witness for c2_fallback_marker_scan: row at /old with marker, probe
/new without marker. -/
theorem c2_fallback_marker_scan_witness :
    LocateUserEntity fsC2 dbC2 7 "/new" =
      ({ dbC2 with user_entities := dbC2.user_entities.map (fun r =>
          if r.id == ueC2.id then { r with parent_dir := fsC2.abs "/new" } else r) },
        Except.ok (some { ueC2 with parent_dir := fsC2.abs "/new" }))
    ∧ (LocateUserEntity fsC2 dbC2 7 "/new").1.user_entities.length
        = dbC2.user_entities.length
    ∧ (selectUserEntitiesByUid (LocateUserEntity fsC2 dbC2 7 "/new").1 7).length
        = (selectUserEntitiesByUid dbC2 7).length :=
  c2_fallback_marker_scan fsC2 dbC2 7 "/new" ueC2 (by decide) (by decide) (by decide)
    (by decide)

/-- C5: Name-independent list locate fallback — no exact match, the
canonicalized dir exists on disk, and the list has at least one stored
row: LocateLstEntity accepts the first stored row whatever its name,
rewrites its directory, and returns it. -/
theorem c5_lst_locate_fallback (fs : FS) (db : Db) (lid : Nat) (dir : String)
    (e : LstEntity) (rest : List LstEntity)
    (hnd : lstIdsNodup db)
    (hex : getLstEntityByLidAndDir db lid (fs.abs dir) = none)
    (hdisk : fs.dirExists (fs.abs dir) = true)
    (hsel : selectLstEntitiesByLid db lid = e :: rest) :
    LocateLstEntity fs db lid dir =
      ({ db with lst_entities := db.lst_entities.map (fun r =>
          if r.id == e.id then { r with parent_dir := fs.abs dir } else r) },
        Except.ok (some { e with parent_dir := fs.abs dir })) := by
  have heMem : e ∈ db.lst_entities ∧ e.lst_id = lid := by
    apply mem_lid_of_select
    rw [hsel]
    exact List.mem_cons_self _ _
  have hnoc : lstEntityDirConflict db.lst_entities e.id e.lst_id (fs.abs dir) = false := by
    rw [heMem.2]
    exact lstConflict_false_of_exact_none e.id hex
  have hupd := execUpdateLstEntityDir_ok (fs.abs dir) hnd heMem.1 hnoc
  have hfind2 : (selectLstEntitiesByLid db lid).find?
      (fun _ => fs.dirExists (fs.abs dir)) = some e := by
    rw [hsel]
    exact List.find?_cons_of_pos _ hdisk
  simp only [LocateLstEntity, hex, hfind2, hupd, execDiscard]

/-- Witness for c5_lst_locate_fallback: list row at /a, /b exists on
disk, probe /b. -/
theorem c5_lst_locate_fallback_witness :
    LocateLstEntity fsC5 dbC5 3 "/b" =
      ({ dbC5 with lst_entities := dbC5.lst_entities.map (fun r =>
          if r.id == leC5.id then { r with parent_dir := fsC5.abs "/b" } else r) },
        Except.ok (some { leC5 with parent_dir := fsC5.abs "/b" })) :=
  c5_lst_locate_fallback fsC5 dbC5 3 "/b" leC5 [] (by decide) (by decide) (by decide)
    (by decide)

/-- C4 counterexample: the exact pair (42, /data/X) is stored and no
marker exists anywhere, yet CreateOrUpdateUserEntityWithPathChange does
not return the stored row: it falls through to the INSERT, which fails
with the uniqueness-constraint error.  There is no exact-match phase in
the create path. -/
theorem c4_counterexample :
    (∀ s, fsNone.marker s = false) ∧
    getUserEntityByUidAndDir dbC3 42 (fsNone.abs "/data/X") = some ueC1a ∧
    CreateOrUpdateUserEntityWithPathChange fsNone dbC3 candC4 =
      (dbC3, Except.error userEntityUniqueErr) :=
  ⟨fun _ => rfl, by decide, by decide⟩

/-- C4 (amended): the create path has no exact-match phase — whenever the
candidate's exact (account id, canonicalized dir) pair is already stored
and no directory carries the marker, CreateOrUpdateUserEntityWithPathChange
reaches the INSERT and returns the store's uniqueness-constraint error,
leaving the store unchanged, instead of returning the stored row. -/
theorem c4_create_path_reaches_insert (fs : FS) (db : Db) (cand : UserEntity)
    (r : UserEntity)
    (hm : ∀ s, fs.marker s = false)
    (hex : getUserEntityByUidAndDir db cand.user_id (fs.abs cand.parent_dir) = some r) :
    CreateOrUpdateUserEntityWithPathChange fs db cand =
      (db, Except.error userEntityUniqueErr) := by
  have hex2 : db.user_entities.find? (fun r2 =>
      r2.user_id == cand.user_id && nocaseEq r2.parent_dir (fs.abs cand.parent_dir))
      = some r := hex
  have hany : db.user_entities.any (fun r2 =>
      r2.user_id == cand.user_id && nocaseEq r2.parent_dir (fs.abs cand.parent_dir)) = true := by
    rw [List.any_eq_true]
    have hp := List.find?_some hex2
    exact ⟨r, List.mem_of_find?_eq_some hex2, hp⟩
  have hins : insertUserEntity db cand.user_id cand.name (fs.abs cand.parent_dir) =
      Except.error userEntityUniqueErr := by
    simp only [insertUserEntity, hany]
    simp
  simp only [CreateOrUpdateUserEntityWithPathChange, hm, createOrUpdateUserEntityScan,
    find?_const_false, hins]
  simp

/-- Witness for c4_create_path_reaches_insert at the concrete store of
the counterexample. -/
theorem c4_create_path_reaches_insert_witness :
    CreateOrUpdateUserEntityWithPathChange fsNone dbC3 candC4 =
      (dbC3, Except.error userEntityUniqueErr) :=
  c4_create_path_reaches_insert fsNone dbC3 candC4 ueC1a (fun _ => rfl) (by decide)

/-- C6 counterexample: the candidate directory /b does not exist on disk,
yet the create-path fallback accepts the stored row of list 3 because the
names match case-insensitively, rewrites it to /b and returns it — the
disk-existence condition of the claim is not checked by the code. -/
theorem c6_counterexample :
    fsNone.dirExists (fsNone.abs "/b") = false ∧
    getLstEntityByLidAndDir dbC5 3 (fsNone.abs "/b") = none ∧
    CreateOrUpdateLstEntityWithPathChange fsNone dbC5 candC6 =
      ({ dbC5 with lst_entities := [{ leC5 with parent_dir := "/b" }] },
        Except.ok { leC5 with parent_dir := "/b" }) := by decide

/-- C6 (amended): the create-path fallback accepts an existing row
exactly when some stored row of the list has a case-insensitively equal
name — the first such row — regardless of whether the candidate directory
exists on disk; on acceptance it rewrites that row's directory and
returns it, and with no name match it inserts a fresh row. -/
theorem c6_create_name_only_fallback (fs : FS) (db : Db) (cand : LstEntity)
    (hnd : lstIdsNodup db)
    (hex : getLstEntityByLidAndDir db cand.lst_id (fs.abs cand.parent_dir) = none) :
    (∀ e, (selectLstEntitiesByLid db cand.lst_id).find?
        (fun r => nocaseEq r.name cand.name) = some e →
      CreateOrUpdateLstEntityWithPathChange fs db cand =
        ({ db with lst_entities := db.lst_entities.map (fun r =>
            if r.id == e.id then { r with parent_dir := fs.abs cand.parent_dir } else r) },
          Except.ok { e with parent_dir := fs.abs cand.parent_dir }))
    ∧ ((selectLstEntitiesByLid db cand.lst_id).find?
        (fun r => nocaseEq r.name cand.name) = none →
      CreateOrUpdateLstEntityWithPathChange fs db cand =
        ({ db with
            lst_entities := db.lst_entities ++
              [{ id := db.nextLstEntityId, lst_id := cand.lst_id, name := cand.name,
                 parent_dir := fs.abs cand.parent_dir }],
            nextLstEntityId := db.nextLstEntityId + 1 },
          Except.ok { cand with
            parent_dir := fs.abs cand.parent_dir,
            id := db.nextLstEntityId })) := by
  constructor
  · intro e hfind
    have heMem := mem_lid_of_select (List.mem_of_find?_eq_some hfind)
    have hnoc : lstEntityDirConflict db.lst_entities e.id e.lst_id
        (fs.abs cand.parent_dir) = false := by
      rw [heMem.2]
      exact lstConflict_false_of_exact_none e.id hex
    have hupd := execUpdateLstEntityDir_ok (fs.abs cand.parent_dir) hnd heMem.1 hnoc
    simp only [CreateOrUpdateLstEntityWithPathChange, hfind, hupd]
  · intro hnone
    have hany : db.lst_entities.any (fun r =>
        r.lst_id == cand.lst_id && nocaseEq r.parent_dir (fs.abs cand.parent_dir)) = false := by
      refine List.any_eq_false.mpr ?_
      intro r hr
      simpa using List.find?_eq_none.mp hex r hr
    have hins : insertLstEntity db cand.lst_id cand.name (fs.abs cand.parent_dir) =
        Except.ok ({ db with
            lst_entities := db.lst_entities ++
              [{ id := db.nextLstEntityId, lst_id := cand.lst_id, name := cand.name,
                 parent_dir := fs.abs cand.parent_dir }],
            nextLstEntityId := db.nextLstEntityId + 1 },
          db.nextLstEntityId) := by
      simp only [insertLstEntity, hany]
      simp
    simp only [CreateOrUpdateLstEntityWithPathChange, hnone, hins]

/-- Witness for c6_create_name_only_fallback: the acceptance branch fires
at the concrete store although /b does not exist on disk. -/
theorem c6_create_name_only_fallback_witness :
    CreateOrUpdateLstEntityWithPathChange fsNone dbC5 candC6 =
      ({ dbC5 with lst_entities := dbC5.lst_entities.map (fun r =>
          if r.id == leC5.id then { r with parent_dir := fsNone.abs "/b" } else r) },
        Except.ok { leC5 with parent_dir := fsNone.abs "/b" }) :=
  (c6_create_name_only_fallback fsNone dbC5 candC6 (by decide) (by decide)).1 leC5
    (by decide)

/-- C7 counterexample: the UPDATE statement issued by LocateUserEntity's
marker fast path on the concrete store fails with the store's
uniqueness-constraint error, yet the call reports success — the engine
does discard a store error. -/
theorem c7_counterexample :
    execUpdateUserEntityDir dbC1 ueC1a.id "/data/X2" =
      Except.error userEntityUniqueErr ∧
    (LocateUserEntity fsC1 dbC1 42 "/data/X2").2 =
      Except.ok (some { ueC1a with parent_dir := "/data/X2" }) := by decide

/-- C7 (amended): every failable statement of the two create-path calls
(their UPDATEs and INSERTs; reads are pure in the embedding and cannot
fail) propagates its error unchanged to the caller, while LocateUserEntity
and LocateLstEntity discard the result of every UPDATE they execute: the
user fast path swallows a concrete uniqueness-violation error, and the
user marker-scan branch and the list fallback branch feed their UPDATE's
outcome only through execDiscard, reporting success whatever that outcome
was. -/
theorem c7_error_propagation :
    (∀ (fs : FS) (db : Db) (cand e : UserEntity) (rest : List UserEntity) (msg : String),
      fs.marker (fs.abs cand.parent_dir) = true →
      selectUserEntitiesByUid db cand.user_id = e :: rest →
      execUpdateUserEntityDirName db e.id (fs.abs cand.parent_dir) cand.name =
        Except.error msg →
      CreateOrUpdateUserEntityWithPathChange fs db cand = (db, Except.error msg))
    ∧ (∀ (fs : FS) (db : Db) (cand e : UserEntity) (msg : String),
      fs.marker (fs.abs cand.parent_dir) = false →
      (selectUserEntitiesByUid db cand.user_id).find?
        (fun r => fs.marker r.parent_dir) = some e →
      execUpdateUserEntityDirName db e.id (fs.abs cand.parent_dir) cand.name =
        Except.error msg →
      CreateOrUpdateUserEntityWithPathChange fs db cand = (db, Except.error msg))
    ∧ (∀ (fs : FS) (db : Db) (cand : UserEntity) (msg : String),
      fs.marker (fs.abs cand.parent_dir) = false →
      (selectUserEntitiesByUid db cand.user_id).find?
        (fun r => fs.marker r.parent_dir) = none →
      insertUserEntity db cand.user_id cand.name (fs.abs cand.parent_dir) =
        Except.error msg →
      CreateOrUpdateUserEntityWithPathChange fs db cand = (db, Except.error msg))
    ∧ (∀ (fs : FS) (db : Db) (cand e : LstEntity) (msg : String),
      (selectLstEntitiesByLid db cand.lst_id).find?
        (fun r => nocaseEq r.name cand.name) = some e →
      execUpdateLstEntityDir db e.id (fs.abs cand.parent_dir) = Except.error msg →
      CreateOrUpdateLstEntityWithPathChange fs db cand = (db, Except.error msg))
    ∧ (∀ (fs : FS) (db : Db) (cand : LstEntity) (msg : String),
      (selectLstEntitiesByLid db cand.lst_id).find?
        (fun r => nocaseEq r.name cand.name) = none →
      insertLstEntity db cand.lst_id cand.name (fs.abs cand.parent_dir) =
        Except.error msg →
      CreateOrUpdateLstEntityWithPathChange fs db cand = (db, Except.error msg))
    ∧ (∀ (fs : FS) (db : Db) (uid : Nat) (dir : String) (e : UserEntity)
        (rest : List UserEntity) (msg : String),
      fs.marker (fs.abs dir) = true →
      selectUserEntitiesByUid db uid = e :: rest →
      execUpdateUserEntityDir db e.id (fs.abs dir) = Except.error msg →
      LocateUserEntity fs db uid dir =
        (db, Except.ok (some { e with parent_dir := fs.abs dir })))
    ∧ (∀ (fs : FS) (db : Db) (uid : Nat) (dir : String) (e : UserEntity),
      fs.marker (fs.abs dir) = false →
      getUserEntityByUidAndDir db uid (fs.abs dir) = none →
      (selectUserEntitiesByUid db uid).find? (fun r => fs.marker r.parent_dir) = some e →
      LocateUserEntity fs db uid dir =
        (execDiscard db (execUpdateUserEntityDir db e.id (fs.abs dir)),
          Except.ok (some { e with parent_dir := fs.abs dir })))
    ∧ (∀ (fs : FS) (db : Db) (lid : Nat) (dir : String) (e : LstEntity),
      getLstEntityByLidAndDir db lid (fs.abs dir) = none →
      (selectLstEntitiesByLid db lid).find? (fun _ => fs.dirExists (fs.abs dir)) = some e →
      LocateLstEntity fs db lid dir =
        (execDiscard db (execUpdateLstEntityDir db e.id (fs.abs dir)),
          Except.ok (some { e with parent_dir := fs.abs dir }))) := by
  refine ⟨?_, ?_, ?_, ?_, ?_, ?_, ?_, ?_⟩
  · intro fs db cand e rest msg hm hsel hupd
    simp only [CreateOrUpdateUserEntityWithPathChange, hm, hsel, hupd]
    simp
  · intro fs db cand e msg hm hfind hupd
    simp only [CreateOrUpdateUserEntityWithPathChange, hm,
      createOrUpdateUserEntityScan, hfind, hupd]
    simp
  · intro fs db cand msg hm hfind hins
    simp only [CreateOrUpdateUserEntityWithPathChange, hm,
      createOrUpdateUserEntityScan, hfind, hins]
    simp
  · intro fs db cand e msg hfind hupd
    simp only [CreateOrUpdateLstEntityWithPathChange, hfind, hupd]
  · intro fs db cand msg hfind hins
    simp only [CreateOrUpdateLstEntityWithPathChange, hfind, hins]
  · intro fs db uid dir e rest msg hm hsel hupd
    simp only [LocateUserEntity, hm, hsel, hupd, execDiscard]
    simp
  · intro fs db uid dir e hm hex hfind
    simp only [LocateUserEntity, hm, locateUserEntityNoFast, hex,
      locateUserEntityScan, hfind]
    simp
  · intro fs db lid dir e hex hfind
    simp only [LocateLstEntity, hex, hfind]

/-- Witness for c7_error_propagation: all eight branches fire on concrete
stores — every failing create-path UPDATE or INSERT returns its
uniqueness error, and every locate branch that runs an UPDATE reports
success. -/
theorem c7_error_propagation_witness :
    CreateOrUpdateUserEntityWithPathChange fsC1 dbC1 candC7 =
      (dbC1, Except.error userEntityUniqueErr) ∧
    CreateOrUpdateUserEntityWithPathChange fsC7b dbC7b candC7b =
      (dbC7b, Except.error userEntityUniqueErr) ∧
    CreateOrUpdateUserEntityWithPathChange fsNone dbC2 candC7i =
      (dbC2, Except.error userEntityUniqueErr) ∧
    CreateOrUpdateLstEntityWithPathChange fsNone dbC7L candC7L =
      (dbC7L, Except.error lstEntityUniqueErr) ∧
    CreateOrUpdateLstEntityWithPathChange fsNone dbC5 candC7Li =
      (dbC5, Except.error lstEntityUniqueErr) ∧
    LocateUserEntity fsC1 dbC7f 42 "/data/X2" =
      (dbC7f, Except.ok (some { ueC1a with parent_dir := fsC1.abs "/data/X2" })) ∧
    LocateUserEntity fsC2 dbC2 7 "/new" =
      (execDiscard dbC2 (execUpdateUserEntityDir dbC2 ueC2.id (fsC2.abs "/new")),
        Except.ok (some { ueC2 with parent_dir := fsC2.abs "/new" })) ∧
    LocateLstEntity fsC5 dbC5 3 "/b" =
      (execDiscard dbC5 (execUpdateLstEntityDir dbC5 leC5.id (fsC5.abs "/b")),
        Except.ok (some { leC5 with parent_dir := fsC5.abs "/b" })) :=
  ⟨c7_error_propagation.1 fsC1 dbC1 candC7 ueC1a [ueC1b] userEntityUniqueErr
      (by decide) (by decide) (by decide),
   c7_error_propagation.2.1 fsC7b dbC7b candC7b ueC1a userEntityUniqueErr
      (by decide) (by decide) (by decide),
   c7_error_propagation.2.2.1 fsNone dbC2 candC7i userEntityUniqueErr
      (by decide) (by decide) (by decide),
   c7_error_propagation.2.2.2.1 fsNone dbC7L candC7L leC7a lstEntityUniqueErr
      (by decide) (by decide),
   c7_error_propagation.2.2.2.2.1 fsNone dbC5 candC7Li lstEntityUniqueErr
      (by decide) (by decide),
   c7_error_propagation.2.2.2.2.2.1 fsC1 dbC7f 42 "/data/X2" ueC1a [ueC7c]
      userEntityUniqueErr (by decide) (by decide) (by decide),
   c7_error_propagation.2.2.2.2.2.2.1 fsC2 dbC2 7 "/new" ueC2
      (by decide) (by decide) (by decide),
   c7_error_propagation.2.2.2.2.2.2.2 fsC5 dbC5 3 "/b" leC5
      (by decide) (by decide)⟩

/-- C9 counterexample: account 42 has two rows and the marker sits in the
canonicalized candidate directory already occupied by the second row.
The fast path does pick the first row, but its UPDATE fails on the
uniqueness constraint and is discarded, so the store is returned
unchanged: the first row's stored directory is not updated, contradicting
the claim's "updates ... the first row". -/
theorem c9_counterexample :
    (selectUserEntitiesByUid dbC1 42).length = 2 ∧
    fsC1.marker (fsC1.abs "/data/X2") = true ∧
    LocateUserEntity fsC1 dbC1 42 "/data/X2" =
      (dbC1, Except.ok (some { ueC1a with parent_dir := "/data/X2" })) ∧
    ueC1a ∈ dbC1.user_entities ∧
    ueC1a.parent_dir ≠ "/data/X2" := by decide

/-- C9 (amended): with the marker inside the canonicalized dir and a
different stored row of the account already occupying that dir, the fast
path still picks the first row the store returns and returns it with
ParentDir rewritten in memory, never consulting the exact-match lookup —
but its UPDATE violates the uniqueness constraint and is silently
discarded, so the store is unchanged. -/
theorem c9_marker_fast_path_bypass (fs : FS) (db : Db) (uid : Nat) (dir : String)
    (e r : UserEntity) (rest : List UserEntity)
    (hnd : userIdsNodup db)
    (hm : fs.marker (fs.abs dir) = true)
    (hsel : selectUserEntitiesByUid db uid = e :: rest)
    (hr : r ∈ db.user_entities) (hrid : r.id ≠ e.id) (hru : r.user_id = uid)
    (hrd : nocaseEq r.parent_dir (fs.abs dir) = true) :
    LocateUserEntity fs db uid dir =
      (db, Except.ok (some { e with parent_dir := fs.abs dir })) := by
  have heMem : e ∈ db.user_entities ∧ e.user_id = uid := by
    apply mem_uid_of_select
    rw [hsel]
    exact List.mem_cons_self _ _
  have hconf : userEntityDirConflict db.user_entities e.id e.user_id (fs.abs dir)
      = true := by
    unfold userEntityDirConflict
    rw [List.any_eq_true]
    refine ⟨r, hr, ?_⟩
    simp only [Bool.and_eq_true, bne_iff_ne, ne_eq]
    exact ⟨⟨hrid, by simp [hru, heMem.2]⟩, hrd⟩
  have hupd := execUpdateUserEntityDir_error (fs.abs dir) hnd heMem.1 hconf
  simp only [LocateUserEntity, hm, hsel, hupd, execDiscard]
  simp

/-- Witness for c9_marker_fast_path_bypass on the concrete two-row
store. -/
theorem c9_marker_fast_path_bypass_witness :
    LocateUserEntity fsC1 dbC1 42 "/data/X2" =
      (dbC1, Except.ok (some { ueC1a with parent_dir := fsC1.abs "/data/X2" })) :=
  c9_marker_fast_path_bypass fsC1 dbC1 42 "/data/X2" ueC1a ueC1b [ueC1b]
    (by decide) (by decide) (by decide) (by decide) (by decide) (by decide) (by decide)

/-- C10: the INSERT of the creation phase stores only user_id, name and
parent_dir — the inserted row carries NULL latest_release_time and NULL
media_count whatever the candidate carried — both for CreateUserEntity
and for the creation phase of CreateOrUpdateUserEntityWithPathChange. -/
theorem c10_insert_only_identity_name_dir (fs : FS) (db : Db) (cand : UserEntity)
    (hm : ∀ s, fs.marker s = false)
    (hnoc : db.user_entities.any (fun r => r.user_id == cand.user_id
      && nocaseEq r.parent_dir (fs.abs cand.parent_dir)) = false) :
    (CreateUserEntity fs db cand).1.user_entities =
      db.user_entities ++
        [{ id := db.nextUserEntityId, user_id := cand.user_id, name := cand.name,
           latest_release_time := none, parent_dir := fs.abs cand.parent_dir,
           media_count := none }]
    ∧ (CreateOrUpdateUserEntityWithPathChange fs db cand).1.user_entities =
      db.user_entities ++
        [{ id := db.nextUserEntityId, user_id := cand.user_id, name := cand.name,
           latest_release_time := none, parent_dir := fs.abs cand.parent_dir,
           media_count := none }] := by
  have hins : insertUserEntity db cand.user_id cand.name (fs.abs cand.parent_dir) =
      Except.ok ({ db with
          user_entities := db.user_entities ++
            [{ id := db.nextUserEntityId, user_id := cand.user_id, name := cand.name,
               latest_release_time := none, parent_dir := fs.abs cand.parent_dir,
               media_count := none }],
          nextUserEntityId := db.nextUserEntityId + 1 },
        db.nextUserEntityId) := by
    simp only [insertUserEntity, hnoc]
    simp
  constructor
  · simp only [CreateUserEntity, hins]
  · simp only [CreateOrUpdateUserEntityWithPathChange, hm,
      createOrUpdateUserEntityScan, find?_const_false, hins]
    simp

/-- Witness for c10_insert_only_identity_name_dir: the candidate carries
latest_release_time = some 5 and media_count = some 7, the inserted row
stores NULL for both. -/
theorem c10_insert_only_identity_name_dir_witness :
    (CreateUserEntity fsNone dbEmpty candC10).1.user_entities =
      dbEmpty.user_entities ++
        [{ id := dbEmpty.nextUserEntityId, user_id := candC10.user_id,
           name := candC10.name, latest_release_time := none,
           parent_dir := fsNone.abs candC10.parent_dir, media_count := none }]
    ∧ (CreateOrUpdateUserEntityWithPathChange fsNone dbEmpty candC10).1.user_entities =
      dbEmpty.user_entities ++
        [{ id := dbEmpty.nextUserEntityId, user_id := candC10.user_id,
           name := candC10.name, latest_release_time := none,
           parent_dir := fsNone.abs candC10.parent_dir, media_count := none }] :=
  c10_insert_only_identity_name_dir fsNone dbEmpty candC10 (fun _ => rfl) (by decide)

/-- C8: Absence is not failure — every get returns the absence value with
no error when no row matches its query, and both locate calls return the
absence value with no error whenever no phase resolves: the marker fast
path cannot fire (marker absent from the canonicalized dir, or the
account has no rows), the exact match finds nothing, and the fallback
scan exhausts (no stored row of the account carries the marker; for
lists, the canonicalized dir is absent from disk or the list has no
rows).  Stored rows may well exist: the call still answers (nil, nil),
never an error. -/
theorem c8_absence_is_not_failure (fs : FS) (db : Db)
    (uid uelId lid lelId luid pleid : Nat) (udir ldir : String)
    (h1 : db.users.find? (fun u => u.id == uid) = none)
    (h2 : db.user_entities.find? (fun r => r.id == uelId) = none)
    (h3 : db.lsts.find? (fun l => l.id == lid) = none)
    (h4 : db.lst_entities.find? (fun r => r.id == lelId) = none)
    (h5 : db.user_links.find?
      (fun l => l.user_id == luid && l.parent_lst_entity_id == pleid) = none)
    (hmku : fs.marker (fs.abs udir) = false ∨ selectUserEntitiesByUid db uid = [])
    (hexu : getUserEntityByUidAndDir db uid (fs.abs udir) = none)
    (hscanu : (selectUserEntitiesByUid db uid).find?
      (fun r => fs.marker r.parent_dir) = none)
    (hexl : getLstEntityByLidAndDir db lid (fs.abs ldir) = none)
    (hdshl : fs.dirExists (fs.abs ldir) = false ∨ selectLstEntitiesByLid db lid = []) :
    GetUserById db uid = Except.ok none ∧
    GetUserEntity db uelId = Except.ok none ∧
    GetLst db lid = Except.ok none ∧
    GetLstEntity db lelId = Except.ok none ∧
    GetUserLink db luid pleid = Except.ok none ∧
    LocateUserEntity fs db uid udir = (db, Except.ok none) ∧
    LocateLstEntity fs db lid ldir = (db, Except.ok none) := by
  have hnf : locateUserEntityNoFast fs db uid (fs.abs udir) = (db, Except.ok none) := by
    simp only [locateUserEntityNoFast, hexu, locateUserEntityScan, hscanu]
  have hlocu : LocateUserEntity fs db uid udir = (db, Except.ok none) := by
    rcases hmku with hmk | hsel
    · simp only [LocateUserEntity, hmk]
      simpa using hnf
    · cases hmk2 : fs.marker (fs.abs udir) with
      | false =>
        simp only [LocateUserEntity, hmk2]
        simpa using hnf
      | true =>
        simp only [LocateUserEntity, hmk2, hsel]
        simpa using hnf
  have hfindl : (selectLstEntitiesByLid db lid).find?
      (fun _ => fs.dirExists (fs.abs ldir)) = none := by
    rcases hdshl with hd | hsel
    · rw [List.find?_eq_none]
      intro a _
      simp [hd]
    · rw [hsel]
      rfl
  have hlocl : LocateLstEntity fs db lid ldir = (db, Except.ok none) := by
    simp only [LocateLstEntity, hexl, hfindl]
  refine ⟨?_, ?_, ?_, ?_, ?_, hlocu, hlocl⟩
  · simp only [GetUserById, h1]
  · simp only [GetUserEntity, h2]
  · simp only [GetLst, h3]
  · simp only [GetLstEntity, h4]
  · simp only [GetUserLink, h5]

/-- Witness for c8_absence_is_not_failure on a store that DOES hold a row
for account 42 (at /data/X) and a row for list 3 (at /a): probing /other
and /c, with no marker and no directory on disk, resolves nothing and
every call answers the absence value with no error. -/
theorem c8_absence_is_not_failure_witness :
    GetUserById dbC8 42 = Except.ok none ∧
    GetUserEntity dbC8 99 = Except.ok none ∧
    GetLst dbC8 3 = Except.ok none ∧
    GetLstEntity dbC8 99 = Except.ok none ∧
    GetUserLink dbC8 1 1 = Except.ok none ∧
    LocateUserEntity fsNone dbC8 42 "/other" = (dbC8, Except.ok none) ∧
    LocateLstEntity fsNone dbC8 3 "/c" = (dbC8, Except.ok none) :=
  c8_absence_is_not_failure fsNone dbC8 42 99 3 99 1 1 "/other" "/c"
    (by decide) (by decide) (by decide) (by decide) (by decide) (by decide)
    (by decide) (by decide) (by decide) (by decide)

end Crud
